import Mathlib

/-!
Shallow embedding of the fluxsave-sdk-python client
(`src/fluxsave_sdk/client.py`) and proofs about its specification.

Python strings are modelled as Lean `String`, Python `int` as `Int`,
Python `None`-able values as `Option`, and Python truthiness is made
explicit wherever the source relies on it.  Lowercasing is modelled
ASCII-style via `Char.toLower`, which agrees with Python `str.lower`
on every string appearing in the development.
-/

/-- ASCII lowercasing of a string, modelling Python `str.lower()`. -/
def lowerStr (s : String) : String :=
  String.mk (s.data.map Char.toLower)

/-- Boolean test that the first list is an initial segment of the second. -/
def startsWithL : List Char → List Char → Bool
  | [], _ => true
  | _ :: _, [] => false
  | a :: as, b :: bs => a == b && startsWithL as bs

/-- Boolean test that `needle` occurs contiguously inside the second list. -/
def containsSub (needle : List Char) : List Char → Bool
  | [] => startsWithL needle []
  | c :: t => startsWithL needle (c :: t) || containsSub needle t

/-- Substring containment, modelling the Python expression `needle in hay`. -/
def strContains (hay needle : String) : Bool :=
  containsSub needle.data hay.data

/-- Scan of the status/substring table of `_resolve_error_code`
(client.py lines 11-37), applied to the already-lowercased message `m`. -/
def resolve_lowered (status : Int) (m : String) : String :=
  if status == 413 && strContains m "storage limit" then "STORAGE_LIMIT"
  else if status == 413 then "FILE_TOO_LARGE"
  else if status == 415 then "MIME_TYPE_NOT_ALLOWED"
  else if status == 402 then "SUBSCRIPTION_INACTIVE"
  else if status == 403 && strContains m "compression" then "COMPRESSION_NOT_ALLOWED"
  else if status == 403 && strContains m "folder" then "FOLDER_COUNT_LIMIT"
  else if status == 403 && (strContains m "file" || strContains m "maximum") then "FILE_COUNT_LIMIT"
  else if status == 403 && strContains m "email" then "EMAIL_NOT_VERIFIED"
  else if status == 400 && strContains m "already registered" then "EMAIL_ALREADY_REGISTERED"
  else if status == 400 && (strContains m "invalid email or password" || strContains m "invalid credentials") then "INVALID_CREDENTIALS"
  else if status == 400 && strContains m "otp" then "INVALID_OTP"
  else if status == 401 then "UNAUTHORIZED"
  else if status == 404 then "NOT_FOUND"
  else "UNKNOWN"

/-- Embedding of `_resolve_error_code` (client.py lines 9-37): the message is
lowercased once (`m = message.lower()`), then the table is scanned. -/
def resolve_error_code (status : Int) (message : String) : String :=
  resolve_lowered status (lowerStr message)

/-- Case-insensitive substring matching, following the spec's words:
messages are "matched case-insensitively by substring containment". -/
def msgHasCI (message needle : String) : Bool :=
  strContains (lowerStr message) (lowerStr needle)

/-- Modelled from the spec's resolution table (section 4.1), row by row,
top to bottom with first match winning, using case-insensitive substring
matching on the raw message.  This is the spec-side definition for the
refinement claim; `resolve_error_code` is the code-side definition. -/
def spec_classify (status : Int) (message : String) : String :=
  if status == 413 && msgHasCI message "storage limit" then "STORAGE_LIMIT"
  else if status == 413 then "FILE_TOO_LARGE"
  else if status == 415 then "MIME_TYPE_NOT_ALLOWED"
  else if status == 402 then "SUBSCRIPTION_INACTIVE"
  else if status == 403 && msgHasCI message "compression" then "COMPRESSION_NOT_ALLOWED"
  else if status == 403 && msgHasCI message "folder" then "FOLDER_COUNT_LIMIT"
  else if status == 403 && (msgHasCI message "file" || msgHasCI message "maximum") then "FILE_COUNT_LIMIT"
  else if status == 403 && msgHasCI message "email" then "EMAIL_NOT_VERIFIED"
  else if status == 400 && msgHasCI message "already registered" then "EMAIL_ALREADY_REGISTERED"
  else if status == 400 && (msgHasCI message "invalid email or password" || msgHasCI message "invalid credentials") then "INVALID_CREDENTIALS"
  else if status == 400 && msgHasCI message "otp" then "INVALID_OTP"
  else if status == 401 then "UNAUTHORIZED"
  else if status == 404 then "NOT_FOUND"
  else "UNKNOWN"

/-- The fixed error-code taxonomy from the `FluxsaveError` docstring,
excluding the fallback `UNKNOWN`. -/
def errorCodeTaxonomy : List String :=
  ["STORAGE_LIMIT", "FILE_TOO_LARGE", "MIME_TYPE_NOT_ALLOWED",
   "SUBSCRIPTION_INACTIVE", "COMPRESSION_NOT_ALLOWED", "FOLDER_COUNT_LIMIT",
   "FILE_COUNT_LIMIT", "EMAIL_NOT_VERIFIED", "EMAIL_ALREADY_REGISTERED",
   "INVALID_CREDENTIALS", "INVALID_OTP", "UNAUTHORIZED", "NOT_FOUND"]

/-- Decoded JSON values, as produced by `response.json()`. -/
inductive JsonValue where
  | jnull : JsonValue
  | jbool : Bool → JsonValue
  | jnum : Int → JsonValue
  | jstr : String → JsonValue
  | jarr : List JsonValue → JsonValue
  | jobj : List (String × JsonValue) → JsonValue

/-- The decoded body of a response: `response.json()` when the body parses
as JSON, else the raw text (`response.text`), mirroring the
`try / except ValueError` in `_request` (client.py lines 108-111). -/
inductive Payload where
  | json : JsonValue → Payload
  | text : String → Payload

/-- Python truthiness of a JSON value (`None`, `False`, `0`, `""`, `[]`,
`{}` are falsy). -/
def jsonTruthy : JsonValue → Bool
  | JsonValue.jnull => false
  | JsonValue.jbool b => b
  | JsonValue.jnum n => n != 0
  | JsonValue.jstr s => s != ""
  | JsonValue.jarr xs => !xs.isEmpty
  | JsonValue.jobj fields => !fields.isEmpty

/-- Extraction of the underlying string of a JSON value; `none` when the
value is not a string (where Python would fail in `message.lower()`). -/
def asString : JsonValue → Option String
  | JsonValue.jstr s => some s
  | _ => none

/-- Python `dict.get(key)`: the value stored at `key`, or `None` (modelled
as `jnull`) when the key is absent. -/
def dictGet (key : String) : List (String × JsonValue) → JsonValue
  | [] => JsonValue.jnull
  | (k, v) :: rest => if k == key then v else dictGet key rest

/-- Embedding of the `FluxsaveError` dataclass (client.py lines 40-77). -/
structure FluxsaveError where
  message : String
  status : Int
  data : Option Payload
  code : String

/-- Construction of a `FluxsaveError`: `__post_init__` derives `code` from
`(status, message)` through `_resolve_error_code` (client.py line 74). -/
def mkFluxsaveError (message : String) (status : Int) (data : Option Payload) : FluxsaveError :=
  ⟨message, status, data, resolve_error_code status message⟩

/-- An HTTP response as the client observes it: status code, reason phrase,
and the already-decoded body. -/
structure HttpResponse where
  status_code : Int
  reason : String
  body : Payload

/-- Embedding of `requests`' `response.ok`: `False` exactly for client and
server error statuses (400-599). -/
def response_ok (status : Int) : Bool :=
  if 400 ≤ status ∧ status < 600 then false else true

/-- Embedding of the response half of `_request` (client.py lines 108-117):
on a non-ok status, the error message is the body's `message` field when the
body is a dict, else the reason phrase, with a truthiness fallback to the
reason (`message or response.reason`); the raised `FluxsaveError` carries
that message, the status, and the decoded body.  `none` models the
`AttributeError` Python would raise in `message.lower()` when the final
message is a truthy non-string. -/
def handleResponse (r : HttpResponse) : Option (Except FluxsaveError Payload) :=
  if response_ok r.status_code then some (Except.ok r.body)
  else
    let message : JsonValue :=
      match r.body with
      | Payload.json (JsonValue.jobj fields) => dictGet "message" fields
      | _ => JsonValue.jstr r.reason
    let finalMsg : JsonValue :=
      if jsonTruthy message then message else JsonValue.jstr r.reason
    match asString finalMsg with
    | some s => some (Except.error (mkFluxsaveError s r.status_code (some r.body)))
    | none => none

/-- Embedding of `FluxsaveClient.__init__` state (client.py lines 80-91). -/
structure FluxsaveClient where
  base_url : String
  api_key : Option String
  api_secret : Option String
  timeout : Int

/-- Python truthiness of an optional string (`None` and `""` are falsy). -/
def pyTruthyStr : Option String → Bool
  | none => false
  | some s => s != ""

/-- The error `_headers` raises when a credential is missing
(client.py line 99). -/
def noAuthError : FluxsaveError :=
  mkFluxsaveError "API key and secret are required" 401 none

/-- Embedding of `_headers` (client.py lines 97-103): fails when either
credential is falsy (`not self.api_key or not self.api_secret`), else
returns the two credential headers. -/
def headers (c : FluxsaveClient) : Except FluxsaveError (List (String × String)) :=
  if !(pyTruthyStr c.api_key) || !(pyTruthyStr c.api_secret) then
    Except.error noAuthError
  else
    Except.ok [("x-api-key", Option.getD c.api_key ""),
               ("x-api-secret", Option.getD c.api_secret "")]

/-- A transport function: method, url, headers, form/json fields, giving
the HTTP response.  Stands for `requests.request`. -/
def Transport : Type :=
  String → String → List (String × String) → List (String × String) → HttpResponse

/-- Embedding of `_request` (client.py lines 105-117).  The second component
counts transport invocations (0 when `_headers` raises before the call, 1
once the HTTP call happens), so "no network I/O" is expressible. -/
def request (c : FluxsaveClient) (method path : String)
    (body : List (String × String)) (t : Transport) :
    Option (Except FluxsaveError Payload) × Nat :=
  match headers c with
  | Except.error e => (some (Except.error e), 0)
  | Except.ok hs => (handleResponse (t method (c.base_url ++ path) hs body), 1)

/-- The form fields built by `upload_file` (client.py lines 121-127):
`name` only when truthy, `compression` and `folderId` when not `None`. -/
def upload_file_data (name compression folder_id : Option String) : List (String × String) :=
  (if pyTruthyStr name then [("name", Option.getD name "")] else []) ++
  (if compression.isSome then [("compression", Option.getD compression "")] else []) ++
  (if folder_id.isSome then [("folderId", Option.getD folder_id "")] else [])

/-- The form fields built by `upload_files` (client.py lines 135-141),
identical to the single-file case. -/
def upload_files_data (name compression folder_id : Option String) : List (String × String) :=
  (if pyTruthyStr name then [("name", Option.getD name "")] else []) ++
  (if compression.isSome then [("compression", Option.getD compression "")] else []) ++
  (if folder_id.isSome then [("folderId", Option.getD folder_id "")] else [])

/-- The form fields built by `update_file` (client.py lines 178-182):
no `folderId` on update. -/
def update_file_data (name compression : Option String) : List (String × String) :=
  (if pyTruthyStr name then [("name", Option.getD name "")] else []) ++
  (if compression.isSome then [("compression", Option.getD compression "")] else [])

/-- The JSON body of `create_folder` (client.py lines 156-158). -/
def create_folder_data (name : String) (parent_id : Option String) : List (String × String) :=
  [("name", name)] ++ (if parent_id.isSome then [("parentId", Option.getD parent_id "")] else [])

/-- The path built by `list_files` (client.py line 149): the query is added
only when `folder_id` is truthy (`if folder_id`). -/
def list_files_path (folder_id : Option String) : String :=
  if pyTruthyStr folder_id then "/api/v1/files?folderId=" ++ Option.getD folder_id ""
  else "/api/v1/files"

/-- Embedding of `list_files` (client.py lines 148-150). -/
def list_files (c : FluxsaveClient) (folder_id : Option String) (t : Transport) :
    Option (Except FluxsaveError Payload) × Nat :=
  request c "GET" (list_files_path folder_id) [] t

/-- Embedding of `list_folders` (client.py lines 152-153). -/
def list_folders (c : FluxsaveClient) (t : Transport) :
    Option (Except FluxsaveError Payload) × Nat :=
  request c "GET" "/api/v1/folders" [] t

/-- Embedding of `create_folder` (client.py lines 155-159). -/
def create_folder (c : FluxsaveClient) (name : String) (parent_id : Option String)
    (t : Transport) : Option (Except FluxsaveError Payload) × Nat :=
  request c "POST" "/api/v1/folders" (create_folder_data name parent_id) t

/-- Embedding of `rename_folder` (client.py lines 161-162). -/
def rename_folder (c : FluxsaveClient) (folder_id name : String) (t : Transport) :
    Option (Except FluxsaveError Payload) × Nat :=
  request c "PATCH" ("/api/v1/folders/" ++ folder_id) [("name", name)] t

/-- Embedding of `delete_folder` (client.py lines 164-165). -/
def delete_folder (c : FluxsaveClient) (folder_id : String) (t : Transport) :
    Option (Except FluxsaveError Payload) × Nat :=
  request c "DELETE" ("/api/v1/folders/" ++ folder_id) [] t

/-- Embedding of `get_file_metadata` (client.py lines 167-168). -/
def get_file_metadata (c : FluxsaveClient) (file_id : String) (t : Transport) :
    Option (Except FluxsaveError Payload) × Nat :=
  request c "GET" ("/api/v1/files/metadata/" ++ file_id) [] t

/-- Embedding of `delete_file` (client.py lines 188-189). -/
def delete_file (c : FluxsaveClient) (file_id : String) (t : Transport) :
    Option (Except FluxsaveError Payload) × Nat :=
  request c "DELETE" ("/api/v1/files/" ++ file_id) [] t

/-- Embedding of `get_metrics` (client.py lines 191-192). -/
def get_metrics (c : FluxsaveClient) (t : Transport) :
    Option (Except FluxsaveError Payload) × Nat :=
  request c "GET" "/api/v1/metrics" [] t

/-- Python `"&".join` over formatted `key=value` pairs (client.py line 197). -/
def joinQuery : List (String × String) → String
  | [] => ""
  | [(k, v)] => k ++ "=" ++ v
  | (k, v) :: rest => k ++ "=" ++ v ++ "&" ++ joinQuery rest

/-- Embedding of `build_file_url` (client.py lines 194-199): pure string
construction, the `?` and query appended only when options are present.
Keyword options are modelled as an ordered association list of already
string-formatted values. -/
def build_file_url (c : FluxsaveClient) (file_id : String)
    (options : List (String × String)) : String :=
  if !options.isEmpty then
    c.base_url ++ "/api/v1/files/" ++ file_id ++ "?" ++ joinQuery options
  else
    c.base_url ++ "/api/v1/files/" ++ file_id

/-- The state of local file handles: a counter of handles ever opened and
the set (as a list of identifiers) currently open. -/
structure FileState where
  nextId : Nat
  openHandles : List Nat

/-- Opening a file always succeeds at the state level: a fresh handle
identifier is returned and recorded as open. -/
def openFile (s : FileState) : Nat × FileState :=
  (s.nextId, ⟨s.nextId + 1, s.nextId :: s.openHandles⟩)

/-- Closing a handle removes it from the open set. -/
def closeFile (h : Nat) (s : FileState) : FileState :=
  ⟨s.nextId, s.openHandles.filter (fun x => x != h)⟩

/-- Python `open(path, "rb")` against a file system `fsys` that says which
paths can be opened: `none` models the raised `OSError` for a missing path
(no handle is created). -/
def pyOpen (fsys : String → Bool) (path : String) (s : FileState) :
    Option (Nat × FileState) :=
  if fsys path then some (openFile s) else none

/-- The list comprehension of `upload_files` (client.py line 134): opens the
paths left to right; an open failure aborts the comprehension, and the
handles already opened stay open (the comprehension runs before the
`try/finally`). -/
def openAll (fsys : String → Bool) : List String → FileState → Option (List Nat) × FileState
  | [], s => (some [], s)
  | p :: rest, s =>
    match pyOpen fsys p s with
    | none => (none, s)
    | some (h, s1) =>
      match openAll fsys rest s1 with
      | (none, s2) => (none, s2)
      | (some hs, s2) => (some (h :: hs), s2)

/-- The `finally` block of `upload_files` (client.py lines 144-146):
closes every handle of the list. -/
def closeAllH (hs : List Nat) (s : FileState) : FileState :=
  hs.foldl (fun acc h => closeFile h acc) s

/-- Outcome of an operation: a returned payload, a raised `FluxsaveError`,
or a non-Fluxsave exception (failed `open`, or the modelled
`AttributeError` of `handleResponse`). -/
inductive OpOutcome where
  | ok : Payload → OpOutcome
  | apiError : FluxsaveError → OpOutcome
  | crash : OpOutcome

/-- Conversion of a `request` result to an operation outcome. -/
def toOutcome : Option (Except FluxsaveError Payload) → OpOutcome
  | none => OpOutcome.crash
  | some (Except.error e) => OpOutcome.apiError e
  | some (Except.ok p) => OpOutcome.ok p

/-- Embedding of `upload_file` (client.py lines 119-131): one file is
opened, the request runs inside `try`, and the `finally` closes the handle
on every exit path of the request. -/
def upload_file (c : FluxsaveClient) (fsys : String → Bool) (file_path : String)
    (name compression folder_id : Option String) (t : Transport) (s : FileState) :
    OpOutcome × Nat × FileState :=
  match pyOpen fsys file_path s with
  | none => (OpOutcome.crash, 0, s)
  | some (h, s1) =>
    let r := request c "POST" "/api/v1/files/upload"
      (upload_file_data name compression folder_id) t
    (toOutcome r.1, r.2, closeFile h s1)

/-- Embedding of `upload_files` (client.py lines 133-146): all paths are
opened by the comprehension before the `try`; the `finally` closes the
opened list only when the comprehension completed. -/
def upload_files (c : FluxsaveClient) (fsys : String → Bool) (file_paths : List String)
    (name compression folder_id : Option String) (t : Transport) (s : FileState) :
    OpOutcome × Nat × FileState :=
  match openAll fsys file_paths s with
  | (none, s1) => (OpOutcome.crash, 0, s1)
  | (some hs, s1) =>
    let r := request c "POST" "/api/v1/files/upload"
      (upload_files_data name compression folder_id) t
    (toOutcome r.1, r.2, closeAllH hs s1)

/-- Embedding of `update_file` (client.py lines 170-186): like
`upload_file` but a `PUT` to the file-by-id path and no `folderId`. -/
def update_file (c : FluxsaveClient) (fsys : String → Bool) (file_id file_path : String)
    (name compression : Option String) (t : Transport) (s : FileState) :
    OpOutcome × Nat × FileState :=
  match pyOpen fsys file_path s with
  | none => (OpOutcome.crash, 0, s)
  | some (h, s1) =>
    let r := request c "PUT" ("/api/v1/files/" ++ file_id)
      (update_file_data name compression) t
    (toOutcome r.1, r.2, closeFile h s1)

/-- Example client with both credentials set. -/
def exClient : FluxsaveClient :=
  ⟨"https://fluxsave.example", some "key", some "secret", 30⟩

/-- Example client whose API key was never set. -/
def noKeyClient : FluxsaveClient :=
  ⟨"https://fluxsave.example", none, some "secret", 30⟩

/-- Example client whose API secret is the empty string. -/
def emptySecretClient : FluxsaveClient :=
  ⟨"https://fluxsave.example", some "key", some "", 30⟩

/-- A transport always answering 200 with an empty JSON object. -/
def okTransport : Transport :=
  fun _ _ _ _ => ⟨200, "OK", Payload.json (JsonValue.jobj [])⟩

/-- A transport always answering 500 with a plain-text body. -/
def failTransport : Transport :=
  fun _ _ _ _ => ⟨500, "Internal Server Error", Payload.text "boom"⟩

/-- The initial file-handle state: nothing open yet. -/
def fileState0 : FileState := ⟨0, []⟩

/-- A file system on which every open succeeds. -/
def fsAll : String → Bool := fun _ => true

/-- A file system on which only `a.txt` opens; every other path raises. -/
def fsOnlyA : String → Bool := fun p => p == "a.txt"

/-- A failing 400 response whose JSON body carries a present but empty
`message` field. -/
def emptyMsgResponse : HttpResponse :=
  ⟨400, "Bad Request", Payload.json (JsonValue.jobj [("message", JsonValue.jstr "")])⟩

/-- A failing 404 response whose JSON body carries a non-empty
`message` field. -/
def truthyMsgResponse : HttpResponse :=
  ⟨404, "Not Found", Payload.json (JsonValue.jobj [("message", JsonValue.jstr "gone")])⟩

/-- Fail-fast property for a fixed client and transport: the raised error has
status 401 and code UNAUTHORIZED, every authenticated operation returns
exactly that error with zero transport invocations, and the upload and
update operations never reach the transport either (their outcome is that
error whenever the local file opens succeed). -/
def authFailsFast (c : FluxsaveClient) (t : Transport) : Prop :=
  noAuthError.status = 401 ∧ noAuthError.code = "UNAUTHORIZED" ∧
  (∀ folder_id, list_files c folder_id t = (some (Except.error noAuthError), 0)) ∧
  list_folders c t = (some (Except.error noAuthError), 0) ∧
  (∀ name parent_id, create_folder c name parent_id t = (some (Except.error noAuthError), 0)) ∧
  (∀ folder_id name, rename_folder c folder_id name t = (some (Except.error noAuthError), 0)) ∧
  (∀ folder_id, delete_folder c folder_id t = (some (Except.error noAuthError), 0)) ∧
  (∀ file_id, get_file_metadata c file_id t = (some (Except.error noAuthError), 0)) ∧
  (∀ file_id, delete_file c file_id t = (some (Except.error noAuthError), 0)) ∧
  get_metrics c t = (some (Except.error noAuthError), 0) ∧
  (∀ fsys p name comp fid s, (upload_file c fsys p name comp fid t s).2.1 = 0 ∧
    (fsys p = true →
      (upload_file c fsys p name comp fid t s).1 = OpOutcome.apiError noAuthError)) ∧
  (∀ fsys paths name comp fid s, (upload_files c fsys paths name comp fid t s).2.1 = 0 ∧
    ((∀ q, q ∈ paths → fsys q = true) →
      (upload_files c fsys paths name comp fid t s).1 = OpOutcome.apiError noAuthError)) ∧
  (∀ fsys fid p name comp s, (update_file c fsys fid p name comp t s).2.1 = 0 ∧
    (fsys p = true →
      (update_file c fsys fid p name comp t s).1 = OpOutcome.apiError noAuthError))

theorem lowerStr_needles :
    lowerStr "storage limit" = "storage limit" ∧
    lowerStr "compression" = "compression" ∧
    lowerStr "folder" = "folder" ∧
    lowerStr "file" = "file" ∧
    lowerStr "maximum" = "maximum" ∧
    lowerStr "email" = "email" ∧
    lowerStr "already registered" = "already registered" ∧
    lowerStr "invalid email or password" = "invalid email or password" ∧
    lowerStr "invalid credentials" = "invalid credentials" ∧
    lowerStr "otp" = "otp" := by
  decide

theorem resolve_eq_spec_classify (s : Int) (m : String) :
    resolve_error_code s m = spec_classify s m := by
  have h := lowerStr_needles
  unfold resolve_error_code resolve_lowered spec_classify msgHasCI
  rw [h.1, h.2.1, h.2.2.1, h.2.2.2.1, h.2.2.2.2.1, h.2.2.2.2.2.1,
      h.2.2.2.2.2.2.1, h.2.2.2.2.2.2.2.1, h.2.2.2.2.2.2.2.2.1,
      h.2.2.2.2.2.2.2.2.2]

/-- The property of being a taxonomy code or the fallback code. -/
abbrev codeOk (x : String) : Prop :=
  x ∈ errorCodeTaxonomy ∨ x = "UNKNOWN"

theorem codeOk_ite {c : Prop} [Decidable c] {a b : String}
    (ha : codeOk a) (hb : codeOk b) : codeOk (if c then a else b) := by
  by_cases h : c
  · rwa [if_pos h]
  · rwa [if_neg h]

theorem resolve_error_code_mem (s : Int) (m : String) :
    codeOk (resolve_error_code s m) := by
  unfold resolve_error_code resolve_lowered
  apply codeOk_ite (Or.inl (by decide))
  apply codeOk_ite (Or.inl (by decide))
  apply codeOk_ite (Or.inl (by decide))
  apply codeOk_ite (Or.inl (by decide))
  apply codeOk_ite (Or.inl (by decide))
  apply codeOk_ite (Or.inl (by decide))
  apply codeOk_ite (Or.inl (by decide))
  apply codeOk_ite (Or.inl (by decide))
  apply codeOk_ite (Or.inl (by decide))
  apply codeOk_ite (Or.inl (by decide))
  apply codeOk_ite (Or.inl (by decide))
  apply codeOk_ite (Or.inl (by decide))
  apply codeOk_ite (Or.inl (by decide))
  exact Or.inr rfl

theorem headers_error_of_falsy (c : FluxsaveClient)
    (h : pyTruthyStr c.api_key = false ∨ pyTruthyStr c.api_secret = false) :
    headers c = Except.error noAuthError := by
  unfold headers
  rcases h with h | h <;> simp [h]

theorem request_noauth (c : FluxsaveClient) (method path : String)
    (body : List (String × String)) (t : Transport)
    (h : pyTruthyStr c.api_key = false ∨ pyTruthyStr c.api_secret = false) :
    request c method path body t = (some (Except.error noAuthError), 0) := by
  unfold request
  rw [headers_error_of_falsy c h]

theorem openAll_some (fsys : String → Bool) (paths : List String) (s : FileState)
    (h : ∀ q, q ∈ paths → fsys q = true) :
    ∃ hs s1, openAll fsys paths s = (some hs, s1) := by
  induction paths generalizing s with
  | nil => exact ⟨[], s, rfl⟩
  | cons p rest ih =>
    have hp : fsys p = true := h p (List.mem_cons_self p rest)
    obtain ⟨hs, s1, hrec⟩ := ih (openFile s).2 (fun q hq => h q (List.mem_cons_of_mem p hq))
    refine ⟨(openFile s).1 :: hs, s1, ?_⟩
    simp [openAll, pyOpen, hp, hrec]

theorem authFailsFast_of_falsy (c : FluxsaveClient) (t : Transport)
    (h : pyTruthyStr c.api_key = false ∨ pyTruthyStr c.api_secret = false) :
    authFailsFast c t := by
  have hreq : ∀ method path body,
      request c method path body t = (some (Except.error noAuthError), 0) :=
    fun method path body => request_noauth c method path body t h
  refine ⟨rfl, rfl, fun folder_id => hreq _ _ _, hreq _ _ _,
    fun name parent_id => hreq _ _ _, fun folder_id name => hreq _ _ _,
    fun folder_id => hreq _ _ _, fun file_id => hreq _ _ _,
    fun file_id => hreq _ _ _, hreq _ _ _, ?_, ?_, ?_⟩
  · intro fsys p name comp fid s
    constructor
    · unfold upload_file pyOpen
      by_cases hp : fsys p = true
      · simp [hp, hreq]
      · simp [hp]
    · intro hp
      unfold upload_file pyOpen
      simp [hp, hreq, toOutcome]
  · intro fsys paths name comp fid s
    constructor
    · unfold upload_files
      rcases hE : openAll fsys paths s with ⟨r, s1⟩
      cases r with
      | none => simp [hE]
      | some hs => simp [hE, hreq]
    · intro hopen
      obtain ⟨hs, s1, hE⟩ := openAll_some fsys paths s hopen
      unfold upload_files
      simp [hE, hreq, toOutcome]
  · intro fsys fid p name comp s
    constructor
    · unfold update_file pyOpen
      by_cases hp : fsys p = true
      · simp [hp, hreq]
      · simp [hp]
    · intro hp
      unfold update_file pyOpen
      simp [hp, hreq, toOutcome]

/-- C1: for every (status, message) pair the code's classifier
`resolve_error_code` returns exactly the code given by the spec's
resolution table `spec_classify` (evaluated top to bottom, first match
winning, case-insensitive substring matching); in particular a 403 message
containing both "compression" and "folder" yields COMPRESSION_NOT_ALLOWED. -/
theorem c1_resolve_matches_spec_table :
    (∀ (s : Int) (m : String), resolve_error_code s m = spec_classify s m) ∧
    resolve_error_code 403 "Maximum folder count reached and compression disabled" =
      "COMPRESSION_NOT_ALLOWED" := by
  refine ⟨resolve_eq_spec_classify, ?_⟩
  decide

/-- C4: every constructed `FluxsaveError` has a `code` drawn from the fixed
taxonomy or equal to UNKNOWN, and the code is a function of
(status, message) alone: changing the payload never changes the code. -/
theorem c4_error_code_taxonomy :
    ∀ (m : String) (s : Int) (d d2 : Option Payload),
      ((mkFluxsaveError m s d).code ∈ errorCodeTaxonomy ∨
        (mkFluxsaveError m s d).code = "UNKNOWN") ∧
      (mkFluxsaveError m s d).code = (mkFluxsaveError m s d2).code :=
  fun m s _ _ => ⟨resolve_error_code_mem s m, rfl⟩

/-- C6: the classifier is a pure total function: it is defined for every
integer status and every message, always returns a non-empty code, and
equal inputs give equal outputs. -/
theorem c6_resolve_total_deterministic :
    ∀ (s1 s2 : Int) (m1 m2 : String),
      resolve_error_code s1 m1 ≠ "" ∧
      (s1 = s2 → m1 = m2 → resolve_error_code s1 m1 = resolve_error_code s2 m2) := by
  intro s1 s2 m1 m2
  constructor
  · rcases resolve_error_code_mem s1 m1 with h | h
    · intro hcon
      rw [hcon] at h
      revert h
      decide
    · rw [h]
      decide
  · intro hs hm
    rw [hs, hm]

/-- C2: when either credential is unset (None), every authenticated
operation fails with the 401 UNAUTHORIZED error before any transport
invocation: the transport call count is 0 on every such path. -/
theorem c2_auth_missing_fails_fast (c : FluxsaveClient) (t : Transport)
    (h : c.api_key = none ∨ c.api_secret = none) : authFailsFast c t := by
  apply authFailsFast_of_falsy
  rcases h with h | h
  · exact Or.inl (by rw [h]; rfl)
  · exact Or.inr (by rw [h]; rfl)

theorem c2_auth_missing_fails_fast_witness :
    (noKeyClient.api_key = none ∨ noKeyClient.api_secret = none) ∧
    authFailsFast noKeyClient okTransport :=
  ⟨Or.inl rfl, c2_auth_missing_fails_fast noKeyClient okTransport (Or.inl rfl)⟩

/-- C9: an empty-string credential behaves exactly like an unset one: every
authenticated operation fails with the 401 UNAUTHORIZED error and the
transport is never invoked. -/
theorem c9_auth_empty_fails_fast (c : FluxsaveClient) (t : Transport)
    (h : c.api_key = some "" ∨ c.api_secret = some "") : authFailsFast c t := by
  apply authFailsFast_of_falsy
  rcases h with h | h
  · exact Or.inl (by rw [h]; rfl)
  · exact Or.inr (by rw [h]; rfl)

theorem c9_auth_empty_fails_fast_witness :
    (emptySecretClient.api_key = some "" ∨ emptySecretClient.api_secret = some "") ∧
    authFailsFast emptySecretClient okTransport :=
  ⟨Or.inr rfl, c9_auth_empty_fails_fast emptySecretClient okTransport (Or.inr rfl)⟩

/-- C3 counterexample: a failing 400 response whose JSON body has the
`message` field present but equal to the empty string.  The claim says the
raised error's message is the body's `message` field whenever that field is
present; the code instead falls back to the reason phrase ("Bad Request"),
because of the `message or response.reason` truthiness guard. -/
theorem c3_counterexample :
    dictGet "message" [("message", JsonValue.jstr "")] = JsonValue.jstr "" ∧
    handleResponse emptyMsgResponse =
      some (Except.error (mkFluxsaveError "Bad Request" 400 (some emptyMsgResponse.body))) ∧
    "Bad Request" ≠ "" := by
  refine ⟨rfl, rfl, by decide⟩

/-- C3 (amended): on a failing status the raised error's message is the
body's `message` field when the body is a JSON object whose `message` field
is present with a truthy (non-empty) string value; when that field is
absent or falsy, or the body is not an object, the reason phrase is used.
The error always carries the status, the decoded body as payload, and the
code resolved by the classifier from (status, message). -/
theorem c3_error_message_amended (r : HttpResponse)
    (h : response_ok r.status_code = false) :
    (∀ fields s2, r.body = Payload.json (JsonValue.jobj fields) →
        dictGet "message" fields = JsonValue.jstr s2 → s2 ≠ "" →
        handleResponse r =
          some (Except.error (mkFluxsaveError s2 r.status_code (some r.body)))) ∧
    (∀ fields, r.body = Payload.json (JsonValue.jobj fields) →
        jsonTruthy (dictGet "message" fields) = false →
        handleResponse r =
          some (Except.error (mkFluxsaveError r.reason r.status_code (some r.body)))) ∧
    ((∀ v, r.body ≠ Payload.json (JsonValue.jobj v)) →
        handleResponse r =
          some (Except.error (mkFluxsaveError r.reason r.status_code (some r.body)))) ∧
    (∀ m s2 d, (mkFluxsaveError m s2 d).code = resolve_error_code s2 m) := by
  refine ⟨?_, ?_, ?_, fun m s2 d => rfl⟩
  · intro fields s2 hbody hfield hs
    have hs2 : (s2 != "") = true := by simp [hs]
    simp [handleResponse, h, hbody, hfield, jsonTruthy, hs2, asString]
  · intro fields hbody hfalsy
    simp [handleResponse, h, hbody, hfalsy, asString]
  · intro hno
    rcases hb : r.body with v | t2
    · cases v with
      | jobj fields => exact absurd hb (hno fields)
      | jnull => simp [handleResponse, h, hb, asString]
      | jbool b => simp [handleResponse, h, hb, asString]
      | jnum n => simp [handleResponse, h, hb, asString]
      | jstr s2 => simp [handleResponse, h, hb, asString]
      | jarr xs => simp [handleResponse, h, hb, asString]
    · simp [handleResponse, h, hb, asString]

theorem c3_error_message_amended_witness :
    response_ok 404 = false ∧
    handleResponse truthyMsgResponse =
      some (Except.error (mkFluxsaveError "gone" 404 (some truthyMsgResponse.body))) :=
  ⟨by decide, (c3_error_message_amended truthyMsgResponse (by decide)).1
      [("message", JsonValue.jstr "gone")] "gone" rfl rfl (by decide)⟩

/-- C7: `build_file_url` is pure string construction: with no options the
result is exactly base URL plus the file-by-id path (no trailing question
mark appended), and with options it is that URL followed by a single `?`
and the unencoded `&`-joined key=value pairs; the two concrete examples of
the spec evaluate as stated. -/
theorem c7_build_file_url_pure (c : FluxsaveClient) (fid : String)
    (opts : List (String × String)) (h : opts ≠ []) :
    build_file_url c fid [] = c.base_url ++ "/api/v1/files/" ++ fid ∧
    build_file_url c fid opts =
      c.base_url ++ "/api/v1/files/" ++ fid ++ "?" ++ joinQuery opts ∧
    build_file_url exClient "abc" [("w", "100"), ("h", "50")] =
      "https://fluxsave.example/api/v1/files/abc?w=100&h=50" ∧
    build_file_url exClient "abc" [] = "https://fluxsave.example/api/v1/files/abc" := by
  refine ⟨rfl, ?_, by decide, by decide⟩
  unfold build_file_url
  cases opts with
  | nil => exact absurd rfl h
  | cons a rest => rfl

theorem c7_build_file_url_pure_witness :
    ([("w", "100")] ≠ ([] : List (String × String))) ∧
    (build_file_url exClient "xyz" [] = exClient.base_url ++ "/api/v1/files/" ++ "xyz" ∧
     build_file_url exClient "xyz" [("w", "100")] =
       exClient.base_url ++ "/api/v1/files/" ++ "xyz" ++ "?" ++ joinQuery [("w", "100")] ∧
     build_file_url exClient "abc" [("w", "100"), ("h", "50")] =
       "https://fluxsave.example/api/v1/files/abc?w=100&h=50" ∧
     build_file_url exClient "abc" [] = "https://fluxsave.example/api/v1/files/abc") :=
  ⟨by decide, c7_build_file_url_pure exClient "xyz" [("w", "100")] (by decide)⟩

/-- C8 counterexample: the empty string is a provided folderId argument,
yet `list_files` builds the bare files path with no query appended — the
code tests Python truthiness (`if folder_id`), not presence, so the claim's
"appended if and only if provided" fails at `folder_id = ""`. -/
theorem c8_counterexample :
    some "" ≠ (none : Option String) ∧
    list_files_path (some "") = "/api/v1/files" ∧
    list_files_path (some "") = list_files_path none := by
  refine ⟨by decide, rfl, rfl⟩

/-- C8 (amended): `list_files` issues a GET to the files path; the folderId
is appended as a query parameter if and only if a non-empty folderId is
provided — an absent folderId and an empty-string folderId both give the
bare files path, which contains no query string at all. -/
theorem c8_list_files_query (c : FluxsaveClient) (fid : Option String) (t : Transport) :
    list_files c fid t = request c "GET" (list_files_path fid) [] t ∧
    (∀ s2, s2 ≠ "" → list_files_path (some s2) = "/api/v1/files?folderId=" ++ s2) ∧
    list_files_path none = "/api/v1/files" ∧
    list_files_path (some "") = "/api/v1/files" ∧
    strContains (list_files_path none) "?" = false := by
  refine ⟨rfl, ?_, rfl, rfl, by decide⟩
  intro s2 hs
  have hs2 : (s2 != "") = true := by simp [hs]
  simp [list_files_path, pyTruthyStr, hs2]

/-- C5: evaluation of `upload_files` at the failing input.  Over the paths
["a.txt", "missing.txt"] on a file system where only `a.txt` opens, the
operation raises (outcome `crash`, the comprehension's open failure) and
the handle opened for `a.txt` (identifier 0) is left open: the opens run
before the `try/finally`, so the finally never sees them.  By contrast,
when both opens succeed and the transport answers a failing 500 (so the
request raises a `FluxsaveError`), every handle is closed. -/
theorem c5_upload_files_partial_open_leak :
    (upload_files exClient fsOnlyA ["a.txt", "missing.txt"] none none none
        okTransport fileState0).2.2.openHandles = [0] ∧
    (upload_files exClient fsOnlyA ["a.txt", "missing.txt"] none none none
        okTransport fileState0).1 = OpOutcome.crash ∧
    (upload_files exClient fsAll ["a.txt", "missing.txt"] none none none
        failTransport fileState0).2.2.openHandles = [] := by
  refine ⟨rfl, rfl, rfl⟩

/-- C10: in the form data of `upload_file`, `upload_files` and
`update_file`, the `name` field is present if and only if the name argument
is truthy (a provided, non-empty string — an empty-string name is silently
omitted), while the `compression` field is present if and only if the
compression argument is provided at all, including when it is the empty
string (`some ""` is counted by `isSome` but not by truthiness). -/
theorem c10_metadata_fields :
    ∀ (name compression folder_id : Option String),
      (("name" ∈ (upload_file_data name compression folder_id).map Prod.fst) ↔
        pyTruthyStr name = true) ∧
      (("compression" ∈ (upload_file_data name compression folder_id).map Prod.fst) ↔
        compression.isSome = true) ∧
      (("name" ∈ (upload_files_data name compression folder_id).map Prod.fst) ↔
        pyTruthyStr name = true) ∧
      (("compression" ∈ (upload_files_data name compression folder_id).map Prod.fst) ↔
        compression.isSome = true) ∧
      (("name" ∈ (update_file_data name compression).map Prod.fst) ↔
        pyTruthyStr name = true) ∧
      (("compression" ∈ (update_file_data name compression).map Prod.fst) ↔
        compression.isSome = true) ∧
      pyTruthyStr none = false ∧
      (∀ s2, pyTruthyStr (some s2) = !(s2 == "")) ∧
      Option.isSome (some "") = true ∧
      pyTruthyStr (some "") = false := by
  intro name compression folder_id
  refine ⟨?_, ?_, ?_, ?_, ?_, ?_, rfl, fun s2 => rfl, rfl, rfl⟩ <;>
    (cases hn : pyTruthyStr name <;> cases hc : compression.isSome <;>
      cases hf : folder_id.isSome <;>
        simp [upload_file_data, upload_files_data, update_file_data, hn, hc, hf])
